import Mathlib

/-!
Verification of the datacenter TXT/JSON-to-GeoJSON converter
(`src/data/datacenter-geo/to_geojson.py`).

JSON values are modelled by `JValue` (numbers as rationals), Python's
`float(...)` conversion by `parseFloatQ`, `json.loads` by `json_loads_list`,
and the regular-expression operations of the source by a small backtracking
matcher (`reMatch`) over encodings of the exact patterns appearing in the
source.  Each Python function of the source is translated to a Lean
definition of the same name; fallible Python code (uncaught exceptions)
is modelled with `Except Unit`.
-/

/-! ## Data model and source functions -/

/-- JSON values as produced by Python's `json` module: `None`, booleans,
numbers (ints and floats both as rationals), strings, lists and
insertion-ordered dicts. -/
inductive JValue where
  | jnull
  | jbool (b : Bool)
  | jnum (q : ℚ)
  | jstr (s : String)
  | jarr (elems : List JValue)
  | jobj (fields : List (String × JValue))

open JValue

/-- First-match lookup in an (unique-key) ordered dict. -/
def lookupField : List (String × JValue) → String → Option JValue
  | [], _ => none
  | (k, v) :: rest, key => if k = key then some v else lookupField rest key

/-- Python `key in dict`. -/
def hasField (fs : List (String × JValue)) (key : String) : Bool :=
  (lookupField fs key).isSome

/-- Python dict assignment `d[k] = v`: overwrite in place, else append. -/
def objInsert : List (String × JValue) → String → JValue → List (String × JValue)
  | [], k, v => [(k, v)]
  | (k0, v0) :: rest, k, v =>
    if k0 = k then (k0, v) :: rest else (k0, v0) :: objInsert rest k v

/-- ASCII whitespace as matched by Python's `str.strip` and regex `\s`. -/
def pyWs (c : Char) : Bool :=
  c = ' ' || c = '\t' || c = '\n' || c = '\r' || c = '\x0b' || c = '\x0c'

/-- Python `str.strip()` on a character list. -/
def pyStrip (cs : List Char) : List Char :=
  ((cs.dropWhile pyWs).reverse.dropWhile pyWs).reverse

/-- Python `str.strip()` on a string. -/
def pyStripStr (s : String) : String := String.mk (pyStrip s.data)

def isDigitCh (c : Char) : Bool := '0' ≤ c && c ≤ '9'

def natOfDigits (cs : List Char) : Nat :=
  cs.foldl (fun a c => a * 10 + (c.toNat - 48)) 0

/-- Digits of a float exponent: an optionally signed digit string with
nothing following. -/
def parseExpDigits (cs : List Char) : Option Int :=
  let (neg, cs) :=
    match cs with
    | '-' :: r => (true, r)
    | '+' :: r => (false, r)
    | _ => (false, cs)
  let ds := cs.takeWhile isDigitCh
  let rest := cs.dropWhile isDigitCh
  if ds.isEmpty || !rest.isEmpty then none
  else some (if neg then -(natOfDigits ds : Int) else (natOfDigits ds : Int))

/-- Exponent suffix of a Python float literal: empty, or `e`/`E` followed by
an optionally signed digit string; nothing may follow. -/
def parseExpPart (cs : List Char) : Option Int :=
  match cs with
  | [] => some 0
  | 'e' :: rest => parseExpDigits rest
  | 'E' :: rest => parseExpDigits rest
  | _ => none

/-- The rational `± mant * 10 ^ exp10`, built with `mkRat` so that it
evaluates by kernel reduction. -/
def ratOfParts (neg : Bool) (mant : Nat) (exp10 : Int) : ℚ :=
  let m : Int := if neg then -(mant : Int) else (mant : Int)
  match exp10 with
  | .ofNat k => mkRat (m * ((10 ^ k : Nat) : Int)) 1
  | .negSucc k => mkRat m (10 ^ (k + 1))

/-- Core of Python `float(string)` after whitespace stripping:
`[+-]? ( digits [. digits*] | . digits+ ) [ (e|E) [+-]? digits+ ]`.
(`inf`/`nan` spellings cannot arise from the source's numeric tokens.) -/
def parseFloatCore (cs : List Char) : Option ℚ :=
  let (neg, cs) :=
    match cs with
    | '-' :: r => (true, r)
    | '+' :: r => (false, r)
    | _ => (false, cs)
  let ip := cs.takeWhile isDigitCh
  let cs1 := cs.dropWhile isDigitCh
  match cs1 with
  | '.' :: cs2 =>
    let fp := cs2.takeWhile isDigitCh
    let cs3 := cs2.dropWhile isDigitCh
    if ip.isEmpty && fp.isEmpty then none
    else
      (parseExpPart cs3).map (fun e =>
        ratOfParts neg (natOfDigits (ip ++ fp)) (e - fp.length))
  | _ =>
    if ip.isEmpty then none
    else (parseExpPart cs1).map (fun e => ratOfParts neg (natOfDigits ip) e)

/-- Python `float(s)` for a string `s` (strips surrounding whitespace). -/
def parseFloatQ (s : String) : Option ℚ := parseFloatCore (pyStrip s.data)

/-- Python `float(x) if not isinstance(x, (int, float)) else x`, viewed
numerically: numbers pass through, booleans count as `1`/`0` (`bool` is a
subclass of `int`), strings are parsed, anything else raises (modelled as
`none`, caught by the surrounding `try`). -/
def pyFloatView : JValue → Option ℚ
  | .jnum q => some q
  | .jbool b => some (if b then 1 else 0)
  | .jstr s => parseFloatQ s
  | _ => none

/-- Python `float(str(x))`: numbers round-trip through their repr, strings
are parsed, `True`/`False`/`None`/list/dict reprs are not valid floats. -/
def strFloatView : JValue → Option ℚ
  | .jnum q => some q
  | .jstr s => parseFloatQ s
  | _ => none

/-- `is_valid_coordinate` (source lines 456-467):
`-90 <= lat <= 90 and -180 <= lon <= 180`. -/
def is_valid_coordinate (lat lon : ℚ) : Bool :=
  decide ((-90 ≤ lat ∧ lat ≤ 90) ∧ (-180 ≤ lon ∧ lon ≤ 180))

/-- `is_chile_coordinate` (source lines 294-317): the Chile bounding box,
falling back to `is_valid_coordinate` for any globally valid pair. -/
def is_chile_coordinate (lat lon : ℚ) : Bool :=
  let lat_valid := decide (-56 ≤ lat ∧ lat ≤ -17)
  let lon_valid := decide (-109 ≤ lon ∧ lon ≤ -66)
  if lat_valid && lon_valid then true
  else is_valid_coordinate lat lon

/-- Key filter of `create_feature_from_data` lines 280-283: keep keys other
than `coordinates`, `latitude`, `longitude`. -/
def notCoordKey (k : String) : Bool :=
  !(k = "coordinates" || k = "latitude" || k = "longitude")

/-- `create_feature_from_data` (source lines 216-292): build a synthetic
Feature from a stage-D record.  Priority 1: explicit `latitude`/`longitude`
validated globally; priority 2: a two-element `coordinates` array checked
with `is_chile_coordinate`, `[lon, lat]` orientation first; conversion
errors are caught (`pass`).  Returns `none` when no coordinates resolve. -/
def create_feature_from_data (data : List (String × JValue)) : Option JValue :=
  let coords1 : Option (JValue × JValue) :=
    match lookupField data "latitude", lookupField data "longitude" with
    | some latO, some lonO =>
      match pyFloatView latO, pyFloatView lonO with
      | some lat, some lon =>
        if is_valid_coordinate lat lon then some (lonO, latO) else none
      | _, _ => none
    | _, _ => none
  let coords2 : Option (JValue × JValue) :=
    match coords1 with
    | some c => some c
    | none =>
      match lookupField data "coordinates" with
      | some (.jarr [c1, c2]) =>
        match pyFloatView c1, pyFloatView c2 with
        | some q1, some q2 =>
          if is_chile_coordinate q2 q1 then some (c1, c2)
          else if is_chile_coordinate q1 q2 then some (c2, c1)
          else none
        | _, _ => none
      | _ => none
  match coords2 with
  | none => none
  | some (lon, lat) =>
    some (.jobj [("type", .jstr "Feature"),
      ("geometry", .jobj [("type", .jstr "Point"), ("coordinates", .jarr [lon, lat])]),
      ("properties", .jobj (data.filter (fun kv => notCoordKey kv.1)))])

inductive RE where
  | eps
  | cls (p : Char → Bool)
  | lit (l : List Char)
  | seq (a b : RE)
  | alt (a b : RE)
  | star (a : RE)
  | group (n : Nat) (a : RE)

/-- Captured groups: most recent capture first. -/
abbrev Caps := List (Nat × List Char)

def reMatch : Nat → RE → List Char → Caps →
    (List Char → Caps → Option (List Char × Caps)) → Option (List Char × Caps)
  | 0, _, _, _, _ => none
  | fuel + 1, re, s, caps, k =>
    match re with
    | .eps => k s caps
    | .cls p =>
      match s with
      | c :: rest => if p c then k rest caps else none
      | [] => none
    | .lit l => if l.isPrefixOf s then k (s.drop l.length) caps else none
    | .seq a b => reMatch fuel a s caps (fun s1 c1 => reMatch fuel b s1 c1 k)
    | .alt a b =>
      match reMatch fuel a s caps k with
      | some r => some r
      | none => reMatch fuel b s caps k
    | .star a =>
      match reMatch fuel a s caps
          (fun s1 c1 =>
            if s1.length < s.length then reMatch fuel (.star a) s1 c1 k else none) with
      | some r => some r
      | none => k s caps
    | .group n a =>
      reMatch fuel a s caps
        (fun s1 c1 => k s1 ((n, s.take (s.length - s1.length)) :: c1))

def reSize : RE → Nat
  | .eps => 1
  | .cls _ => 1
  | .lit _ => 1
  | .seq a b => 1 + reSize a + reSize b
  | .alt a b => 1 + reSize a + reSize b
  | .star a => 2 + reSize a
  | .group _ a => 1 + reSize a

def reFuel (re : RE) (s : List Char) : Nat :=
  (reSize re + 4) * (s.length + 2) * (s.length + 2)

/-- Attempt a match anchored at the start of `s`; returns the match length
and the captures. -/
def tryAt (re : RE) (s : List Char) : Option (Nat × Caps) :=
  match reMatch (reFuel re s) re s [] (fun rem caps => some (rem, caps)) with
  | some (rem, caps) => some (s.length - rem.length, caps)
  | none => none

/-- `re.search`: leftmost match; returns the captures. -/
def reSearch (re : RE) : List Char → Option Caps
  | [] =>
    match tryAt re [] with
    | some (_, caps) => some caps
    | none => none
  | c :: rest =>
    match tryAt re (c :: rest) with
    | some (_, caps) => some caps
    | none => reSearch re rest

/-- `re.sub` with a replacement built from the captures.  Leftmost,
non-overlapping; none of the source's patterns can match empty, and an
empty match is skipped over defensively. -/
def reSubAux (re : RE) (repl : Caps → List Char) : Nat → List Char → List Char
  | 0, s => s
  | fuel + 1, s =>
    match tryAt re s with
    | some (len, caps) =>
      if len = 0 then
        match s with
        | [] => []
        | c :: rest => c :: reSubAux re repl fuel rest
      else repl caps ++ reSubAux re repl fuel (s.drop len)
    | none =>
      match s with
      | [] => []
      | c :: rest => c :: reSubAux re repl fuel rest

def reSub (re : RE) (repl : Caps → List Char) (s : List Char) : List Char :=
  reSubAux re repl (s.length + 1) s

/-- `re.findall` for a pattern without capturing groups: the list of
matched substrings. -/
def reFindAllAux (re : RE) : Nat → List Char → List (List Char)
  | 0, _ => []
  | fuel + 1, s =>
    match tryAt re s with
    | some (len, _) =>
      if len = 0 then
        match s with
        | [] => []
        | _ :: rest => reFindAllAux re fuel rest
      else s.take len :: reFindAllAux re fuel (s.drop len)
    | none =>
      match s with
      | [] => []
      | _ :: rest => reFindAllAux re fuel rest

def reFindAll (re : RE) (s : List Char) : List (List Char) :=
  reFindAllAux re (s.length + 1) s

/-- `re.split` for a groupless pattern: the pieces between matches. -/
def reSplitAux (re : RE) : Nat → List Char → List Char → List (List Char)
  | 0, s, acc => [acc.reverse ++ s]
  | fuel + 1, s, acc =>
    match tryAt re s with
    | some (len, _) =>
      if len = 0 then
        match s with
        | [] => [acc.reverse]
        | c :: rest => reSplitAux re fuel rest (c :: acc)
      else acc.reverse :: reSplitAux re fuel (s.drop len) []
    | none =>
      match s with
      | [] => [acc.reverse]
      | c :: rest => reSplitAux re fuel rest (c :: acc)

def reSplit (re : RE) (s : List Char) : List (List Char) :=
  reSplitAux re (s.length + 1) s []

/-- A case-insensitive literal (for the `re.IGNORECASE` searches). -/
def reLitCI (s : String) : RE :=
  s.data.foldr (fun c acc => RE.seq (RE.cls (fun x => x.toLower = c.toLower)) acc) RE.eps

def reChar (c : Char) : RE := RE.cls (fun x => x = c)

/-- `\s*` (Python ASCII whitespace class). -/
def reWsStar : RE := RE.star (RE.cls pyWs)

/-- `p+` as `p p*`. -/
def rePlus (r : RE) : RE := RE.seq r (RE.star r)

def seqList (l : List RE) : RE := l.foldr RE.seq RE.eps

/-- JSON whitespace as skipped by Python's decoder. -/
def jWsCh (c : Char) : Bool := c = ' ' || c = '\t' || c = '\n' || c = '\r'

def jWs (s : List Char) : List Char := s.dropWhile jWsCh

def hexVal (c : Char) : Option Nat :=
  if '0' ≤ c ∧ c ≤ '9' then some (c.toNat - 48)
  else if 'a' ≤ c ∧ c ≤ 'f' then some (c.toNat - 87)
  else if 'A' ≤ c ∧ c ≤ 'F' then some (c.toNat - 55)
  else none

/-- JSON string body after the opening quote: ordinary characters (control
characters must be escaped) and the escape sequences of the JSON grammar. -/
def jsonStringAux : Nat → List Char → List Char → Option (String × List Char)
  | 0, _, _ => none
  | fuel + 1, acc, s =>
    match s with
    | [] => none
    | '"' :: rest => some (String.mk acc.reverse, rest)
    | '\\' :: rest =>
      match rest with
      | 'u' :: h1 :: h2 :: h3 :: h4 :: rest2 =>
        match hexVal h1, hexVal h2, hexVal h3, hexVal h4 with
        | some a, some b, some c, some d =>
          jsonStringAux fuel (Char.ofNat (((a * 16 + b) * 16 + c) * 16 + d) :: acc) rest2
        | _, _, _, _ => none
      | e :: rest2 =>
        match
          (if e = '"' then some '"'
           else if e = '\\' then some '\\'
           else if e = '/' then some '/'
           else if e = 'b' then some '\x08'
           else if e = 'f' then some '\x0c'
           else if e = 'n' then some '\n'
           else if e = 'r' then some '\r'
           else if e = 't' then some '\t'
           else none) with
        | some c => jsonStringAux fuel (c :: acc) rest2
        | none => none
      | [] => none
    | c :: rest => if c.toNat < 32 then none else jsonStringAux fuel (c :: acc) rest

/-- Exponent tail of a JSON number: on a malformed exponent the characters
are left unconsumed (so the outer parser fails on them), as in the
decoder's number regex. -/
def jsonExpTail (r orig : List Char) : Int × List Char :=
  let (eneg, r1) :=
    match r with
    | '-' :: t => (true, t)
    | '+' :: t => (false, t)
    | _ => (false, r)
  let ds := r1.takeWhile isDigitCh
  if ds.isEmpty then (0, orig)
  else ((if eneg then -(natOfDigits ds : Int) else (natOfDigits ds : Int)),
        r1.dropWhile isDigitCh)

/-- JSON number grammar: `-? (0 | [1-9][0-9]*) (\.[0-9]+)? ([eE][+-]?[0-9]+)?`. -/
def jsonNumber (s : List Char) : Option (ℚ × List Char) :=
  let (neg, s1) :=
    match s with
    | '-' :: r => (true, r)
    | _ => (false, s)
  let ipPart : Option (List Char × List Char) :=
    match s1 with
    | '0' :: r => some (['0'], r)
    | c :: r =>
      if '1' ≤ c ∧ c ≤ '9' then some (c :: r.takeWhile isDigitCh, r.dropWhile isDigitCh)
      else none
    | [] => none
  match ipPart with
  | none => none
  | some (ip, s2) =>
    let (fp, s3) :=
      match s2 with
      | '.' :: r =>
        if (r.takeWhile isDigitCh).isEmpty then ([], s2)
        else (r.takeWhile isDigitCh, r.dropWhile isDigitCh)
      | _ => ([], s2)
    if s3.length < s2.length ∨ fp.isEmpty then
      -- either a fraction was consumed, or there was none
      let (ex, s4) : Int × List Char :=
        match s3 with
        | 'e' :: r => jsonExpTail r s3
        | 'E' :: r => jsonExpTail r s3
        | _ => (0, s3)
      some (ratOfParts neg (natOfDigits (ip ++ fp)) (ex - fp.length), s4)
    else none

mutual

def jsonValue : Nat → List Char → Option (JValue × List Char)
  | 0, _ => none
  | fuel + 1, s =>
    match jWs s with
    | '{' :: rest => jsonObjBody fuel rest
    | '[' :: rest => jsonArrBody fuel rest
    | '"' :: rest =>
      (jsonStringAux (rest.length + 1) [] rest).map (fun p => (.jstr p.1, p.2))
    | 't' :: rest =>
      if ['r', 'u', 'e'].isPrefixOf rest then some (.jbool true, rest.drop 3) else none
    | 'f' :: rest =>
      if ['a', 'l', 's', 'e'].isPrefixOf rest then some (.jbool false, rest.drop 4) else none
    | 'n' :: rest =>
      if ['u', 'l', 'l'].isPrefixOf rest then some (.jnull, rest.drop 3) else none
    | s2 => (jsonNumber s2).map (fun p => (.jnum p.1, p.2))

def jsonObjBody : Nat → List Char → Option (JValue × List Char)
  | 0, _ => none
  | fuel + 1, s =>
    match jWs s with
    | '}' :: rest => some (.jobj [], rest)
    | _ => jsonMembers fuel s []

def jsonMembers : Nat → List Char → List (String × JValue) → Option (JValue × List Char)
  | 0, _, _ => none
  | fuel + 1, s, acc =>
    match jWs s with
    | '"' :: rest =>
      match jsonStringAux (rest.length + 1) [] rest with
      | none => none
      | some (key, r1) =>
        match jWs r1 with
        | ':' :: r2 =>
          match jsonValue fuel r2 with
          | none => none
          | some (v, r3) =>
            match jWs r3 with
            | ',' :: r4 => jsonMembers fuel r4 (objInsert acc key v)
            | '}' :: r4 => some (.jobj (objInsert acc key v), r4)
            | _ => none
        | _ => none
    | _ => none

def jsonArrBody : Nat → List Char → Option (JValue × List Char)
  | 0, _ => none
  | fuel + 1, s =>
    match jWs s with
    | ']' :: rest => some (.jarr [], rest)
    | _ => jsonElements fuel s []

def jsonElements : Nat → List Char → List JValue → Option (JValue × List Char)
  | 0, _, _ => none
  | fuel + 1, s, acc =>
    match jsonValue fuel s with
    | none => none
    | some (v, r1) =>
      match jWs r1 with
      | ',' :: r2 => jsonElements fuel r2 (acc ++ [v])
      | ']' :: r2 => some (.jarr (acc ++ [v]), r2)
      | _ => none

end

/-- `json.loads` on a character list: one value, then only whitespace. -/
def json_loads_list (cs : List Char) : Option JValue :=
  match jsonValue (2 * cs.length + 8) cs with
  | some (v, rest) => if jWs rest = [] then some v else none
  | none => none

def json_loads (s : String) : Option JValue := json_loads_list s.data

def capGet (caps : Caps) (n : Nat) : List Char :=
  match caps.find? (fun p => p.1 = n) with
  | some p => p.2
  | none => []

/-- Repair pattern 1 (line 144): `"\s*\n\s*"`. -/
def repairP1 : RE :=
  seqList [reChar '"', reWsStar, reChar '\n', reWsStar, reChar '"']

def valFirst (c : Char) : Bool := !(c = '"' || c = ',' || c = '[' || c = '{' || pyWs c)

def valMid (c : Char) : Bool := !(c = '"' || c = ',' || c = '[' || c = '}')

def valLast (c : Char) : Bool := !(c = '"' || c = ',' || c = '[' || c = '}' || pyWs c)

/-- Repair pattern 2 (line 147): `:\s*([^",\[\\x7b\s][^",\[\}]*[^",\[\\x7d\s])\s*[,\\x7d]`. -/
def repairP2 : RE :=
  seqList [reChar ':', reWsStar,
    RE.group 1 (seqList [RE.cls valFirst, RE.star (RE.cls valMid), RE.cls valLast]),
    reWsStar, RE.cls (fun c => c = ',' || c = '\x7d')]

def identStart (c : Char) : Bool :=
  ('a' ≤ c && c ≤ 'z') || ('A' ≤ c && c ≤ 'Z') || c = '_'

def identChar (c : Char) : Bool := identStart c || isDigitCh c

/-- Repair pattern 3 (line 150): `([a-zA-Z_][a-zA-Z0-9_]*)\s*:`. -/
def repairP3 : RE :=
  seqList [RE.group 1 (RE.seq (RE.cls identStart) (RE.star (RE.cls identChar))),
    reWsStar, reChar ':']

/-- `repair_json_string` (source lines 129-158): the three substitutions in
order, then one parse attempt; any failure yields `None`. -/
def repair_json_string_list (cs : List Char) : Option JValue :=
  let cleaned := pyStrip cs
  let cleaned := reSub repairP1 (fun _ => ['"', ',', '\n', '"']) cleaned
  let cleaned := reSub repairP2 (fun caps => [':', ' ', '"'] ++ capGet caps 1 ++ ['"']) cleaned
  let cleaned := reSub repairP3 (fun caps => '"' :: (capGet caps 1 ++ ['"', ':'])) cleaned
  json_loads_list cleaned

def repair_json_string (s : String) : Option JValue := repair_json_string_list s.data

def nonBrace (c : Char) : Bool := !(c = '{' || c = '}')

/-- Strategy-3 pattern (line 109):
`\{[^{}]*"type"\s*:\s*"Feature"[^{}]*(?:\{[^{}]*\}[^{}]*)*\}`
(`re.DOTALL` is irrelevant: the pattern contains no `.`). -/
def featureP : RE :=
  seqList [reChar '{', RE.star (RE.cls nonBrace),
    RE.lit ['"', 't', 'y', 'p', 'e', '"'], reWsStar, reChar ':', reWsStar,
    RE.lit ['"', 'F', 'e', 'a', 't', 'u', 'r', 'e', '"'],
    RE.star (RE.cls nonBrace),
    RE.star (seqList [reChar '{', RE.star (RE.cls nonBrace), reChar '}',
      RE.star (RE.cls nonBrace)]),
    reChar '}']

/-- A string-valued field pattern of `extract_with_regex` (lines 174-179):
`"FIELD"\s*:\s*"([^"]*)"`, searched with `re.IGNORECASE`. -/
def fieldStrP (field : String) : RE :=
  seqList [reLitCI ("\"" ++ field ++ "\""), reWsStar, reChar ':', reWsStar,
    reChar '"', RE.group 1 (RE.star (RE.cls (fun c => !(c = '"')))), reChar '"']

def numTokCh (c : Char) : Bool := isDigitCh c || c = '.' || c = '-'

/-- Numeric field pattern (lines 180-181): `"FIELD"\s*:\s*([0-9.-]+)`. -/
def fieldNumP (field : String) : RE :=
  seqList [reLitCI ("\"" ++ field ++ "\""), reWsStar, reChar ':', reWsStar,
    RE.group 1 (rePlus (RE.cls numTokCh))]

/-- Coordinates pattern (line 182): `"coordinates"\s*:\s*\[([^\]]+)\]`. -/
def coordArrP : RE :=
  seqList [reLitCI "\"coordinates\"", reWsStar, reChar ':', reWsStar,
    reChar '[', RE.group 1 (rePlus (RE.cls (fun c => !(c = ']')))), reChar ']']

/-- Section splitter (line 186): `re.split(r'\n\s*\n', content)`. -/
def sectionSplitP : RE :=
  seqList [reChar '\n', reWsStar, reChar '\n']

/-- Python substring test `needle in hay`. -/
def isSubstr : List Char → List Char → Bool
  | needle, [] => needle.isEmpty
  | needle, c :: rest => needle.isPrefixOf (c :: rest) || isSubstr needle rest

/-- Python `key in x` for the values reaching the membership tests of
`extract_coordinates`: key lookup for dicts, element equality for lists,
substring test for strings; `in` on a number/bool/`None` raises `TypeError`
(uncaught at line 386). -/
def pyContains (key : String) : JValue → Except Unit Bool
  | .jobj fs => .ok (hasField fs key)
  | .jarr l =>
    .ok (l.any (fun v => match v with | .jstr s => s == key | _ => false))
  | .jstr s => .ok (isSubstr key.data s.data)
  | _ => .error ()

/-- Python `x[key]` inside a `try` that catches `TypeError`: only dicts
yield a value (the membership test guarantees the key exists). -/
def getItemTry : JValue → String → Option JValue
  | .jobj fs, k => lookupField fs k
  | _, _ => none

/-- Numeric view used in comparisons where Python accepts a bool as a
number (`bool` is a subclass of `int`). -/
def numViewPy : JValue → ℚ
  | .jnum q => q
  | .jbool b => if b then 1 else 0
  | _ => 0

def lat_fields : List String := ["lat", "latitude", "y", "LAT", "LATITUDE"]

def lon_fields : List String := ["lon", "lng", "longitude", "x", "LON", "LONGITUDE", "LNG"]

/-- Priority-3 field scan of `extract_coordinates` (lines 431-447): first
field present in `properties` whose value is a number/bool (kept as is) or
a string parsing as a float; `ValueError`/`TypeError` continue to the next
field. -/
def altFieldSearch (properties : JValue) : List String → Except Unit (Option JValue)
  | [] => .ok none
  | f :: rest => do
    let m ← pyContains f properties
    if m then
      match getItemTry properties f with
      | none => altFieldSearch properties rest
      | some v =>
        match v with
        | .jnum q => .ok (some (.jnum q))
        | .jbool b => .ok (some (.jbool b))
        | .jstr s =>
          match parseFloatQ s with
          | some q => .ok (some (.jnum q))
          | none => altFieldSearch properties rest
        | _ => altFieldSearch properties rest
    else altFieldSearch properties rest

/-- Priority 1 of `extract_coordinates` (lines 386-399): explicit
`latitude`/`longitude` entries of `properties` parsed via `float(str(.))`,
accepted when globally valid; the parsed floats are returned. -/
def ec_priority1 (properties : JValue) (hasLat hasLon : Bool) : Option (JValue × JValue) :=
  if hasLat && hasLon then
    match getItemTry properties "latitude", getItemTry properties "longitude" with
    | some latV, some lonV =>
      match strFloatView latV, strFloatView lonV with
      | some lat, some lon =>
        if is_valid_coordinate lat lon then some (.jnum lon, .jnum lat) else none
      | _, _ => none
    | _, _ => none
  else none

/-- Priority 2 of `extract_coordinates` (lines 401-422): a two-element
`geometry["coordinates"]`, `[lon, lat]` orientation tried first, the
original values returned; on neither orientation validating, fall
through. -/
def ec_priority2 (geometry : JValue) : Option (JValue × JValue) :=
  match geometry with
  | .jobj gfs =>
    match lookupField gfs "coordinates" with
    | some (.jarr [c1, c2]) =>
      match pyFloatView c1, pyFloatView c2 with
      | some q1, some q2 =>
        if is_valid_coordinate q2 q1 then some (c1, c2)
        else if is_valid_coordinate q1 q2 then some (c2, c1)
        else none
      | _, _ => none
    | _ => none
  | _ => none

/-- `extract_coordinates` (source lines 373-454): the three priorities in
order; the membership test on a non-container `properties` raises
(uncaught, line 386). -/
def extract_coordinates (geometry properties : JValue) :
    Except Unit (Option (JValue × JValue)) := do
  let hasLat ← pyContains "latitude" properties
  let hasLon ← (if hasLat then pyContains "longitude" properties else pure false)
  match ec_priority1 properties hasLat hasLon with
  | some r => return (some r)
  | none =>
    match ec_priority2 geometry with
    | some r => return (some r)
    | none =>
      let latv ← altFieldSearch properties lat_fields
      let lonv ← altFieldSearch properties lon_fields
      match latv, lonv with
      | some lv, some ov =>
        if is_valid_coordinate (numViewPy lv) (numViewPy ov) then
          return (some (ov, lv))
        else return none
      | _, _ => return none

/-- `value != "" and value is not None` (line 355). -/
def valNonEmptyNonNull : JValue → Bool
  | .jstr s => !(s == "")
  | .jnull => false
  | _ => true

/-- The properties-cleaning loop of `validate_and_fix_feature`
(lines 353-362): drop empty-string/`None` values and `latitude`/`longitude`
keys, strip string values and drop those that strip to empty. -/
def clean_properties : List (String × JValue) → List (String × JValue)
  | [] => []
  | (k, v) :: rest =>
    if valNonEmptyNonNull v && !(k == "latitude" || k == "longitude") then
      match v with
      | .jstr s =>
        let s2 := pyStripStr s
        if s2 == "" then clean_properties rest else (k, .jstr s2) :: clean_properties rest
      | _ => (k, v) :: clean_properties rest
    else clean_properties rest

/-- `feature.get("type") != "Feature"`, negated. -/
def isFeatureTyped (fs : List (String × JValue)) : Bool :=
  match lookupField fs "type" with
  | some (.jstr t) => t == "Feature"
  | _ => false

/-- `validate_and_fix_feature` (source lines 319-371): reject non-Feature
candidates, resolve coordinates via `extract_coordinates`, clean the
properties, and rebuild the canonical Feature. -/
def validate_and_fix_feature (feature : JValue) : Except Unit (Option JValue) :=
  match feature with
  | .jobj fs =>
    if isFeatureTyped fs then do
      let geometry := (lookupField fs "geometry").getD (.jobj [])
      let properties := (lookupField fs "properties").getD (.jobj [])
      let coords ← extract_coordinates geometry properties
      match coords with
      | none => return none
      | some (lon, lat) =>
        let props := match properties with | .jobj ps => ps | _ => []
        return some (.jobj [("type", .jstr "Feature"),
          ("geometry", .jobj [("type", .jstr "Point"), ("coordinates", .jarr [lon, lat])]),
          ("properties", .jobj (clean_properties props))])
    else .ok none
  | _ => .ok none

/-- Python `s.split(sep)` for a one-character separator. -/
def splitOnChar (sep : Char) : List Char → List Char → List (List Char)
  | [], acc => [acc.reverse]
  | c :: rest, acc =>
    if c = sep then acc.reverse :: splitOnChar sep rest []
    else splitOnChar sep rest (c :: acc)

def strFieldNames : List String :=
  ["name", "company_name", "address", "city", "state", "country"]

/-- One `latitude`/`longitude` step of the pattern loop (lines 195-196):
`float(match.group(1))` is NOT inside a `try`, so an unparseable token
raises `ValueError` out of `extract_with_regex`. -/
def latlonStep (acc : List (String × JValue)) (f : String) (sec : List Char) :
    Except Unit (List (String × JValue)) :=
  match reSearch (fieldNumP f) sec with
  | some caps =>
    match parseFloatQ (String.mk (capGet caps 1)) with
    | some q => .ok (objInsert acc f (.jnum q))
    | none => .error ()
  | none => .ok acc

/-- The pattern loop of `extract_with_regex` (lines 192-206) over one
section, in the dict order of `patterns`: string fields, then latitude and
longitude (unguarded float), then the coordinates array (guarded float,
`continue` on `ValueError`, stored only when exactly two numbers). -/
def buildSectionData (sec : List Char) : Except Unit (List (String × JValue)) := do
  let d1 := strFieldNames.foldl (fun acc f =>
    match reSearch (fieldStrP f) sec with
    | some caps => objInsert acc f (.jstr (String.mk (capGet caps 1)))
    | none => acc) []
  let d2 ← latlonStep d1 "latitude" sec
  let d3 ← latlonStep d2 "longitude" sec
  match reSearch coordArrP sec with
  | some caps =>
    let parts := splitOnChar ',' (capGet caps 1) []
    match parts.mapM (fun p => parseFloatQ (String.mk p)) with
    | some qs =>
      if qs.length = 2 then return objInsert d3 "coordinates" (.jarr (qs.map JValue.jnum))
      else return d3
    | none => return d3
  | none => return d3

def extract_with_regex_go : List (List Char) → Except Unit (List JValue)
  | [] => .ok []
  | sec :: rest => do
    let here ←
      if isSubstr "name".data sec || isSubstr "coordinates".data sec then do
        let data ← buildSectionData sec
        if hasField data "name" then
          match create_feature_from_data data with
          | some f => pure [f]
          | none => pure []
        else pure []
      else pure ([] : List JValue)
    let more ← extract_with_regex_go rest
    return here ++ more

/-- `extract_with_regex` (source lines 160-214): split on blank lines,
keep sections mentioning `name` or `coordinates`, extract fields, and
build a synthetic feature when a `name` was found. -/
def extract_with_regex (content : List Char) : Except Unit (List JValue) :=
  extract_with_regex_go (reSplit sectionSplitP content)

/-- Iteration of the caller's `for`-loop (line 31) over the value returned
by strategy 1 when it is not a list: strings iterate over one-character
strings, dicts over their keys; numbers, bools and `None` raise
`TypeError` (modelled here, where the value is produced). -/
def pyIterate : JValue → Except Unit (List JValue)
  | .jarr l => .ok l
  | .jstr s => .ok (s.data.map (fun c => .jstr (String.mk [c])))
  | .jobj m => .ok (m.map (fun kv => .jstr kv.1))
  | _ => .error ()

/-- Strategy 1 dispatch (lines 70-75) on the parsed document: a dict with a
`features` key returns that value, a list is returned as is, a dict typed
`Feature` is wrapped; anything else falls through (`none`) to strategy 2. -/
def stratADispatch : JValue → Option (Except Unit (List JValue))
  | .jobj m =>
    if hasField m "features" then
      some (pyIterate ((lookupField m "features").getD .jnull))
    else if (match lookupField m "type" with
             | some (.jstr t) => t == "Feature"
             | _ => false) then
      some (.ok [.jobj m])
    else none
  | .jarr l => some (.ok l)
  | _ => none

def countChar (c : Char) (l : List Char) : Nat := l.countP (fun x => x = c)

/-- Strategy 2 (lines 79-105): line accumulation with brace counting;
whenever the count returns to zero, parse the buffer, or repair it, and
reset the buffer in every case. -/
def strategyB_go : List (List Char) → List Char → Int → List JValue → List JValue
  | [], _, _, acc => acc
  | line :: rest, current, bc, acc =>
    let line := pyStrip line
    if line.isEmpty then strategyB_go rest current bc acc
    else
      let current2 := current ++ line ++ ['\n']
      let bc2 := bc + (countChar '{' line : Int) - (countChar '}' line : Int)
      if bc2 == 0 && !(pyStrip current2).isEmpty then
        match json_loads_list (pyStrip current2) with
        | some d => strategyB_go rest [] bc2 (acc ++ [d])
        | none =>
          match repair_json_string_list (pyStrip current2) with
          | some r => strategyB_go rest [] bc2 (acc ++ [r])
          | none => strategyB_go rest [] bc2 acc
      else strategyB_go rest current2 bc2 acc

def strategyB (content : List Char) : List JValue :=
  strategyB_go (splitOnChar '\n' content []) [] 0 []

/-- Strategy 3 (lines 108-119): regex feature blocks, parsed or repaired. -/
def strategyC (content : List Char) : List JValue :=
  (reFindAll featureP content).foldl (fun acc m =>
    match json_loads_list m with
    | some d => acc ++ [d]
    | none =>
      match repair_json_string_list m with
      | some r => acc ++ [r]
      | none => acc) []

/-- `content.strip().startswith('{') or content.strip().startswith('[')`
(line 68). -/
def startsWithBrace (cs : List Char) : Bool :=
  match cs with
  | '{' :: _ => true
  | '[' :: _ => true
  | _ => false

/-- `extract_features_from_content` (source lines 54-127): strategy 1 when
the stripped text starts with `{` or `[` and parses to a recognised shape;
otherwise strategies 2, 3 and 4 in fallback order. -/
def extract_features_from_content (content : List Char) : Except Unit (List JValue) :=
  match (if startsWithBrace (pyStrip content) then
          match json_loads_list content with
          | some parsed => stratADispatch parsed
          | none => none
         else none) with
  | some r => r
  | none =>
    let feats := strategyB content
    let feats := if feats.isEmpty then strategyC content else feats
    if feats.isEmpty then extract_with_regex content else .ok feats

/-- The per-feature loop of `parse_txt_to_geojson` (lines 31-39): validate
each candidate, keep the accepted ones in order. -/
def processFeatures : List JValue → Except Unit (List JValue)
  | [] => .ok []
  | f :: rest => do
    let v ← validate_and_fix_feature f
    let more ← processFeatures rest
    match v with
    | some g => return g :: more
    | none => return more

/-- Extraction followed by validation. -/
def run_pipeline (content : List Char) : Except Unit (List JValue) := do
  let feats ← extract_features_from_content content
  processFeatures feats

/-- `parse_txt_to_geojson` (source lines 6-52), with the file system
abstracted: `none` input models `FileNotFoundError` (caught: reported, no
output written); an uncaught exception inside the pipeline is caught by the
top-level handler, also writing no output (`none` result); otherwise the
`FeatureCollection` that is written to the output file. -/
def parse_txt_to_geojson (content : Option (List Char)) : Option JValue :=
  match content with
  | none => none
  | some c =>
    match run_pipeline c with
    | .ok feats => some (.jobj [("type", .jstr "FeatureCollection"), ("features", .jarr feats)])
    | .error _ => none

/-- The `FeatureCollection` document written by `parse_txt_to_geojson`. -/
def featureCollection (feats : List JValue) : JValue :=
  .jobj [("type", .jstr "FeatureCollection"), ("features", .jarr feats)]

/-- The properties dict of a Feature object (empty when absent). -/
def featureProps (f : JValue) : List (String × JValue) :=
  match f with
  | .jobj fs =>
    match lookupField fs "properties" with
    | some (.jobj ps) => ps
    | _ => []
  | _ => []

/-- The `geometry.coordinates` value of a Feature object. -/
def coordsOfFeature (f : JValue) : Option JValue :=
  match f with
  | .jobj fs =>
    match lookupField fs "geometry" with
    | some (.jobj gs) => lookupField gs "coordinates"
    | _ => none
  | _ => none

/-- Length of a successful pipeline result. -/
def okLength (r : Except Unit (List JValue)) : Option Nat :=
  match r with
  | .ok l => some l.length
  | .error _ => none

/-- Coordinates of each feature of a successful pipeline result. -/
def okCoords (r : Except Unit (List JValue)) : Option (List (Option JValue)) :=
  match r with
  | .ok l => some (l.map coordsOfFeature)
  | .error _ => none

/-- A stage-D record whose coordinates come from a two-element
`coordinates` pair `[a, b]`. -/
def c1_data (a b : ℚ) : List (String × JValue) :=
  [("name", .jstr "X"), ("coordinates", .jarr [.jnum a, .jnum b])]

/-- The synthetic Feature built from `c1_data` with the given ordered
coordinates. -/
def c1_feature (lon lat : ℚ) : JValue :=
  .jobj [("type", .jstr "Feature"),
    ("geometry", .jobj [("type", .jstr "Point"), ("coordinates", .jarr [.jnum lon, .jnum lat])]),
    ("properties", .jobj [("name", .jstr "X")])]

/-- A document reaching stage D: strategies 1-3 yield nothing (no braces),
the single section mentions `name`, and the `latitude` pattern captures the
token `-.-`, which is not a parseable float. -/
def c5_bad_content : List Char := "\"name\": \"X\", \"latitude\": -.-".data

/-- The latitude/longitude token of one pattern search parses as a float
whenever it is matched at all. -/
def latTokOk (p : RE) (sec : List Char) : Bool :=
  match reSearch p sec with
  | some caps => (parseFloatQ (String.mk (capGet caps 1))).isSome
  | none => true

def sectionTokensOk (sec : List Char) : Bool :=
  latTokOk (fieldNumP "latitude") sec && latTokOk (fieldNumP "longitude") sec

/-- Every section of the document has parseable latitude/longitude tokens
(when those patterns match at all). -/
def latLonTokensOk (content : List Char) : Bool :=
  (reSplit sectionSplitP content).all sectionTokensOk

/-- A stage-D document whose latitude/longitude tokens all parse. -/
def c5_good_content : List Char :=
  "\"name\": \"A\"\n\"latitude\": -33.45\n\"longitude\": -70.67".data

/-- Properties invariant actually maintained by the validator: no
`latitude`/`longitude` keys, no empty-string values, no `None` values. -/
def propsClean (ps : List (String × JValue)) : Bool :=
  ps.all (fun kv => !(kv.1 == "latitude") && !(kv.1 == "longitude") && valNonEmptyNonNull kv.2)

/-- A structured candidate whose properties carry a `coordinates` key. -/
def c2_input : JValue :=
  .jobj [("type", .jstr "Feature"),
    ("geometry", .jobj [("type", .jstr "Point"),
      ("coordinates", .jarr [.jnum (mkRat (-7067) 100), .jnum (mkRat (-3345) 100)])]),
    ("properties", .jobj [("name", .jstr "A"), ("coordinates", .jstr "x")])]

/-- What the validator emits for `c2_input`. -/
def c2_output : JValue :=
  .jobj [("type", .jstr "Feature"),
    ("geometry", .jobj [("type", .jstr "Point"),
      ("coordinates", .jarr [.jnum (mkRat (-7067) 100), .jnum (mkRat (-3345) 100)])]),
    ("properties", .jobj [("name", .jstr "A"), ("coordinates", .jstr "x")])]

/-- A clean concrete candidate for the C2 witness. -/
def c2_wit_input : JValue :=
  .jobj [("type", .jstr "Feature"),
    ("geometry", .jobj [("type", .jstr "Point"),
      ("coordinates", .jarr [.jnum (mkRat 1 1), .jnum (mkRat 2 1)])]),
    ("properties", .jobj [("note", .jstr " hi ")])]

/-- What the validator emits for `c2_wit_input`. -/
def c2_wit_output : JValue :=
  .jobj [("type", .jstr "Feature"),
    ("geometry", .jobj [("type", .jstr "Point"),
      ("coordinates", .jarr [.jnum (mkRat 1 1), .jnum (mkRat 2 1)])]),
    ("properties", .jobj [("note", .jstr "hi")])]

/-- Modelled from the spec's wording of property normalization: drop any
key whose value is empty string or absent (`None`); drop the `latitude`
and `longitude` keys; trim whitespace from string values, dropping the key
when trimming yields the empty string; pass other values unchanged. -/
def normalize_spec (ps : List (String × JValue)) : List (String × JValue) :=
  ps.filterMap (fun kv =>
    if kv.1 = "latitude" ∨ kv.1 = "longitude" then none
    else
      match kv.2 with
      | .jnull => none
      | .jstr s => if pyStripStr s = "" then none else some (kv.1, .jstr (pyStripStr s))
      | v => some (kv.1, v))

/-- The C8 example candidate: properties
`{"name": " DC1 ", "note": "", "extra": 5}`. -/
def c8_fields : List (String × JValue) :=
  [("type", .jstr "Feature"),
   ("geometry", .jobj [("type", .jstr "Point"),
     ("coordinates", .jarr [.jnum (mkRat (-7067) 100), .jnum (mkRat (-3345) 100)])]),
   ("properties", .jobj [("name", .jstr " DC1 "), ("note", .jstr ""), ("extra", .jnum (mkRat 5 1))])]

/-- The Feature the validator emits for `c8_fields`: properties
`{"name": "DC1", "extra": 5}`. -/
def c8_output : JValue :=
  .jobj [("type", .jstr "Feature"),
    ("geometry", .jobj [("type", .jstr "Point"),
      ("coordinates", .jarr [.jnum (mkRat (-7067) 100), .jnum (mkRat (-3345) 100)])]),
    ("properties", .jobj [("name", .jstr "DC1"), ("extra", .jnum (mkRat 5 1))])]

/-- A canonical output feature used in the C6 witness. -/
def c6_feat : JValue :=
  .jobj [("type", .jstr "Feature"),
    ("geometry", .jobj [("type", .jstr "Point"),
      ("coordinates", .jarr [.jnum (mkRat 1 1), .jnum (mkRat 2 1)])]),
    ("properties", .jobj [("name", .jstr "A")])]

/-- Modelled from the spec's data model: a well-formed Feature is typed
`Feature`, has a Point geometry with numeric `[lon, lat]` coordinates in
global range, and a properties dict free of `latitude`/`longitude` keys. -/
def wfFeature (f : JValue) : Bool :=
  match f with
  | .jobj fs =>
    isFeatureTyped fs &&
    (match lookupField fs "geometry" with
     | some (.jobj gs) =>
       (match lookupField gs "type" with
        | some (.jstr t) => t == "Point"
        | _ => false) &&
       (match lookupField gs "coordinates" with
        | some (.jarr [.jnum lon, .jnum lat]) => is_valid_coordinate lat lon
        | _ => false)
     | _ => false) &&
    (match lookupField fs "properties" with
     | some (.jobj ps) => !(hasField ps "latitude") && !(hasField ps "longitude")
     | _ => false)
  | _ => false

/-! ## Theorems -/

/-- C1, counterexample.  For the pair `[-33.45, -70.67]` the synthetic
builder returns the orientation unchanged — `(lon, lat) = (-33.45, -70.67)`
— and NOT the regionally corrected `(-70.67, -33.45)` asserted by the
claim: `is_chile_coordinate(-70.67, -33.45)` already succeeds through its
global-validity fallback, so the first branch wins. -/
theorem c1_counterexample :
    create_feature_from_data (c1_data (mkRat (-3345) 100) (mkRat (-7067) 100)) =
      some (c1_feature (mkRat (-3345) 100) (mkRat (-7067) 100)) ∧
    create_feature_from_data (c1_data (mkRat (-3345) 100) (mkRat (-7067) 100)) ≠
      some (c1_feature (mkRat (-7067) 100) (mkRat (-3345) 100)) := by
  refine ⟨rfl, fun h => ?_⟩
  rw [show create_feature_from_data (c1_data (mkRat (-3345) 100) (mkRat (-7067) 100)) =
      some (c1_feature (mkRat (-3345) 100) (mkRat (-7067) 100)) from rfl] at h
  simp +decide [c1_feature] at h

/-- C1, amended.  For a two-element `coordinates` pair `(a, b)` the
synthetic builder returns `(a, b)` whenever `is_chile_coordinate b a`
holds — and since `is_chile_coordinate` falls back to plain global
validity, this already succeeds for every globally plausible `[lon=a,
lat=b]` reading; the swapped orientation is used only when the first
fails entirely, so the regional box exerts no preference between two
globally plausible orientations.  In particular `[-33.45, -70.67]` is
returned unswapped. -/
theorem c1_theorem :
    (∀ a b : ℚ,
      create_feature_from_data (c1_data a b) =
        (if is_chile_coordinate b a then some (c1_feature a b)
         else if is_chile_coordinate a b then some (c1_feature b a)
         else none)) ∧
    create_feature_from_data (c1_data (mkRat (-3345) 100) (mkRat (-7067) 100)) =
      some (c1_feature (mkRat (-3345) 100) (mkRat (-7067) 100)) := by
  refine ⟨fun a b => ?_, rfl⟩
  unfold create_feature_from_data c1_data c1_feature
  simp [lookupField, pyFloatView, notCoordKey]
  by_cases h1 : is_chile_coordinate b a <;> by_cases h2 : is_chile_coordinate a b <;>
    simp [h1, h2]

/-- C4.  The malformed candidate text `{ name: Santiago DC1, }` (unquoted
key and value, trailing comma) is repaired: substitution 2 quotes the value
(consuming the trailing comma), substitution 3 quotes the key, and the
parse succeeds with `name` equal to `"Santiago DC1"`. -/
theorem c4_theorem :
    repair_json_string "\x7b\nname: Santiago DC1,\n\x7d" =
      some (.jobj [("name", .jstr "Santiago DC1")]) ∧
    (repair_json_string "\x7b\nname: Santiago DC1,\n\x7d").map
        (fun v => lookupField (match v with | .jobj fs => fs | _ => []) "name") =
      some (some (.jstr "Santiago DC1")) :=
  ⟨rfl, rfl⟩

/-- C9.  A missing input file (`FileNotFoundError`, modelled by a `none`
content) is caught by the converter: processing aborts normally and no
output document is produced. -/
theorem c9_theorem : parse_txt_to_geojson none = none := rfl

/-- C5, counterexample.  The unguarded `float(match.group(1))` of stage D
raises a `ValueError` out of the extraction pipeline: the candidate is not
merely dropped — the whole run aborts (the top-level handler catches the
exception and no output document is written). -/
theorem c5_counterexample :
    extract_features_from_content c5_bad_content = .error () ∧
    parse_txt_to_geojson (some c5_bad_content) = none :=
  ⟨rfl, rfl⟩

theorem except_bind_ok {α β : Type} (a : α) (f : α → Except Unit β) :
    (Except.ok a >>= f) = f a := rfl

theorem except_pure_bind {α β : Type} (a : α) (f : α → Except Unit β) :
    (pure a >>= f) = f a := rfl

theorem latlonStep_ok (f : String) (sec : List Char)
    (h : latTokOk (fieldNumP f) sec = true) (acc : List (String × JValue)) :
    ∃ d, latlonStep acc f sec = .ok d := by
  unfold latlonStep
  unfold latTokOk at h
  match hs : reSearch (fieldNumP f) sec with
  | none => exact ⟨acc, rfl⟩
  | some caps =>
    simp only [hs] at h ⊢
    match hp : parseFloatQ (String.mk (capGet caps 1)) with
    | none => simp only [hp, Option.isSome] at h; exact (Bool.false_ne_true h).elim
    | some q => simp only [hp]; exact ⟨_, rfl⟩

theorem buildSectionData_ok (sec : List Char)
    (h : sectionTokensOk sec = true) : ∃ d, buildSectionData sec = .ok d := by
  unfold sectionTokensOk at h
  rw [Bool.and_eq_true] at h
  obtain ⟨d2, h2⟩ := latlonStep_ok "latitude" sec h.1
    ((strFieldNames.foldl (fun acc f =>
      match reSearch (fieldStrP f) sec with
      | some caps => objInsert acc f (.jstr (String.mk (capGet caps 1)))
      | none => acc) []))
  obtain ⟨d3, h3⟩ := latlonStep_ok "longitude" sec h.2 d2
  simp only [buildSectionData]
  rw [h2, except_bind_ok, h3, except_bind_ok]
  match hc : reSearch coordArrP sec with
  | none => exact ⟨d3, rfl⟩
  | some caps =>
    simp only [hc]
    match hm : (splitOnChar ',' (capGet caps 1) []).mapM
        (fun p => parseFloatQ (String.mk p)) with
    | none => exact ⟨d3, rfl⟩
    | some qs =>
      by_cases hl : qs.length = 2 <;> simp only [hm, hl, if_true, if_false] <;> exact ⟨_, rfl⟩

theorem extract_with_regex_go_ok (secs : List (List Char))
    (h : secs.all sectionTokensOk = true) :
    ∃ l, extract_with_regex_go secs = .ok l := by
  induction secs with
  | nil => exact ⟨[], rfl⟩
  | cons sec rest ih =>
    rw [List.all_cons, Bool.and_eq_true] at h
    obtain ⟨l, hl⟩ := ih h.2
    unfold extract_with_regex_go
    by_cases hg : (isSubstr "name".data sec || isSubstr "coordinates".data sec) = true
    · obtain ⟨d, hd⟩ := buildSectionData_ok sec h.1
      simp only [hg, if_true, hd, except_bind_ok]
      by_cases hn : hasField d "name" = true
      · simp only [hn, if_true]
        match create_feature_from_data d with
        | some f => simp only [except_pure_bind, hl, except_bind_ok]; exact ⟨_, rfl⟩
        | none => simp only [except_pure_bind, hl, except_bind_ok]; exact ⟨_, rfl⟩
      · simp only [hn, if_false, except_pure_bind, hl, except_bind_ok]
        exact ⟨_, rfl⟩
    · simp only [hg, if_false, except_pure_bind, hl, except_bind_ok]
      exact ⟨_, rfl⟩

/-- C5, amended.  Parse and repair failures at stages A-C are caught per
candidate (those stages are total functions of the model), and a stage-D
section is dropped when no `name` is found; but as `c5_counterexample`
shows, an unparseable latitude/longitude token in stage D raises an
uncaught `ValueError` that aborts the whole run.  Conversely, whenever
every latitude/longitude token that the stage-D patterns capture parses as
a float, stage D raises nothing. -/
theorem c5_theorem (content : List Char) (h : latLonTokensOk content = true) :
    extract_with_regex content ≠ Except.error () := by
  unfold latLonTokensOk at h
  obtain ⟨l, hl⟩ := extract_with_regex_go_ok _ h
  unfold extract_with_regex
  rw [hl]
  intro hc
  exact Except.noConfusion hc

/-- Witness for `c5_theorem` at `c5_good_content`. -/
theorem c5_witness : extract_with_regex c5_good_content ≠ Except.error () :=
  c5_theorem c5_good_content (by decide)

theorem clean_properties_clean (ps : List (String × JValue)) :
    propsClean (clean_properties ps) = true := by
  induction ps with
  | nil => rfl
  | cons kv rest ih =>
    obtain ⟨k, v⟩ := kv
    unfold clean_properties
    by_cases hv : (valNonEmptyNonNull v && !(k == "latitude" || k == "longitude")) = true
    · simp only [hv, if_true]
      rw [Bool.and_eq_true, Bool.not_eq_true', Bool.or_eq_false_iff] at hv
      match v with
      | .jstr s =>
        by_cases hs : pyStripStr s == ""
        · simp only [hs, if_true]; exact ih
        · simp only [hs, Bool.false_eq_true, if_false]
          unfold propsClean at ih ⊢
          rw [List.all_cons, ih]
          simp [hv.2.1, hv.2.2, valNonEmptyNonNull, hs]
      | .jnull => simp [valNonEmptyNonNull] at hv
      | .jnum q =>
        unfold propsClean at ih ⊢
        rw [List.all_cons, ih]
        simp [hv.2.1, hv.2.2, valNonEmptyNonNull]
      | .jbool b =>
        unfold propsClean at ih ⊢
        rw [List.all_cons, ih]
        simp [hv.2.1, hv.2.2, valNonEmptyNonNull]
      | .jarr l =>
        unfold propsClean at ih ⊢
        rw [List.all_cons, ih]
        simp [hv.2.1, hv.2.2, valNonEmptyNonNull]
      | .jobj m =>
        unfold propsClean at ih ⊢
        rw [List.all_cons, ih]
        simp [hv.2.1, hv.2.2, valNonEmptyNonNull]
    · simp only [hv, if_false]
      exact ih

theorem validate_props_clean (f g : JValue)
    (h : validate_and_fix_feature f = .ok (some g)) :
    propsClean (featureProps g) = true := by
  match f with
  | .jnull | .jbool _ | .jnum _ | .jstr _ | .jarr _ => exact Option.noConfusion (Except.ok.inj h)
  | .jobj fs =>
    unfold validate_and_fix_feature at h
    by_cases ht : isFeatureTyped fs = true
    · simp only [ht, if_true] at h
      match hec : extract_coordinates ((lookupField fs "geometry").getD (.jobj []))
          ((lookupField fs "properties").getD (.jobj [])) with
      | .error e => rw [hec] at h; exact Except.noConfusion h
      | .ok none => rw [hec, except_bind_ok] at h; exact Option.noConfusion (Except.ok.inj h)
      | .ok (some (lon, lat)) =>
        rw [hec, except_bind_ok] at h
        have hg := Except.ok.inj h
        have hg2 := Option.some.inj hg
        subst hg2
        unfold featureProps
        simp only [lookupField]
        norm_num
        exact clean_properties_clean _
    · simp only [ht, if_false] at h
      exact Option.noConfusion (Except.ok.inj h)

theorem create_feature_props_nocoord (d : List (String × JValue)) (f : JValue)
    (h : create_feature_from_data d = some f) :
    ((featureProps f).all fun kv => notCoordKey kv.1) = true := by
  simp only [create_feature_from_data] at h
  match hc : (match
      (match lookupField d "latitude", lookupField d "longitude" with
        | some latO, some lonO =>
          match pyFloatView latO, pyFloatView lonO with
          | some lat, some lon =>
            if is_valid_coordinate lat lon then some (lonO, latO) else none
          | _, _ => none
        | _, _ => none : Option (JValue × JValue)) with
      | some c => some c
      | none =>
        match lookupField d "coordinates" with
        | some (.jarr [c1, c2]) =>
          match pyFloatView c1, pyFloatView c2 with
          | some q1, some q2 =>
            if is_chile_coordinate q2 q1 then some (c1, c2)
            else if is_chile_coordinate q1 q2 then some (c2, c1)
            else none
          | _, _ => none
        | _ => none : Option (JValue × JValue)) with
  | none => rw [hc] at h; exact Option.noConfusion h
  | some (lon, lat) =>
    rw [hc] at h
    have hg := Option.some.inj h
    subst hg
    rw [show featureProps (jobj [("type", jstr "Feature"),
        ("geometry", jobj [("type", jstr "Point"), ("coordinates", jarr [lon, lat])]),
        ("properties", jobj (List.filter (fun kv => notCoordKey kv.1) d))]) =
      List.filter (fun kv => notCoordKey kv.1) d from rfl]
    rw [List.all_eq_true]
    intro kv hkv
    exact (List.mem_filter.mp hkv).2

/-- C2, counterexample.  The validator's cleaning loop filters only the
`latitude` and `longitude` keys, so an emitted Feature CAN carry a
`coordinates` key in its properties, contrary to the claim. -/
theorem c2_counterexample :
    validate_and_fix_feature c2_input = .ok (some c2_output) ∧
    hasField (featureProps c2_output) "coordinates" = true :=
  ⟨rfl, rfl⟩

/-- C2, amended.  Every Feature emitted by the validator (through which
every pipeline output passes, stage-D features included) has properties
free of `latitude`/`longitude` keys and of empty-string or `None` values —
but a `coordinates` key may survive.  The synthetic builder additionally
excludes all three coordinate keys from the properties it assembles. -/
theorem c2_theorem :
    (∀ f g, validate_and_fix_feature f = .ok (some g) →
      propsClean (featureProps g) = true) ∧
    (∀ d f, create_feature_from_data d = some f →
      ((featureProps f).all fun kv => notCoordKey kv.1) = true) :=
  ⟨validate_props_clean, create_feature_props_nocoord⟩

/-- Witness for `c2_theorem` at a concrete accepted candidate. -/
theorem c2_witness : propsClean (featureProps c2_wit_output) = true :=
  c2_theorem.1 c2_wit_input c2_wit_output rfl

/-- C7.  For a two-element geometry `coordinates` pair `(a, b)` (and no
competing `latitude`/`longitude` properties), the resolver first reads it
as `[lon=a, lat=b]`, accepted iff `is_valid_coordinate b a`; only otherwise
does it try `[lat=a, lon=b]`, accepted iff `is_valid_coordinate a b`.  In
particular `[-70.67, -33.45]` is returned with orientation preserved. -/
theorem c7_theorem :
    (∀ a b : ℚ,
      extract_coordinates (.jobj [("coordinates", .jarr [.jnum a, .jnum b])]) (.jobj []) =
        .ok (if is_valid_coordinate b a then some (.jnum a, .jnum b)
             else if is_valid_coordinate a b then some (.jnum b, .jnum a)
             else none)) ∧
    extract_coordinates
        (.jobj [("coordinates", .jarr [.jnum (mkRat (-7067) 100), .jnum (mkRat (-3345) 100)])])
        (.jobj []) =
      .ok (some (.jnum (mkRat (-7067) 100), .jnum (mkRat (-3345) 100))) := by
  refine ⟨fun a b => ?_, rfl⟩
  by_cases h1 : is_valid_coordinate b a <;> by_cases h2 : is_valid_coordinate a b <;>
    simp [extract_coordinates, ec_priority1, ec_priority2, pyContains, hasField, lookupField,
      pyFloatView, altFieldSearch, lat_fields, lon_fields, getItemTry, except_bind_ok,
      h1, h2] <;> rfl

theorem clean_properties_eq_spec (ps : List (String × JValue)) :
    clean_properties ps = normalize_spec ps := by
  induction ps with
  | nil => rfl
  | cons kv rest ih =>
    obtain ⟨k, v⟩ := kv
    unfold clean_properties normalize_spec
    rw [List.filterMap_cons]
    by_cases hk : (k = "latitude" ∨ k = "longitude")
    · have hg : (valNonEmptyNonNull v && !(k == "latitude" || k == "longitude")) = false := by
        rcases hk with hk | hk <;> subst hk <;> simp
      simp only [hg, Bool.false_eq_true, if_false, hk, if_true]
      exact ih
    · have hk1 : (k == "latitude") = false := by
        simp only [beq_eq_false_iff_ne]; exact fun h => hk (Or.inl h)
      have hk2 : (k == "longitude") = false := by
        simp only [beq_eq_false_iff_ne]; exact fun h => hk (Or.inr h)
      simp only [hk, if_false]
      match v with
      | .jnull =>
        simp only [valNonEmptyNonNull, Bool.false_and, Bool.false_eq_true, if_false]
        exact ih
      | .jstr s =>
        by_cases hs : s = ""
        · subst hs
          simp only [valNonEmptyNonNull, beq_self_eq_true, Bool.not_true, Bool.false_and,
            Bool.false_eq_true, if_false]
          rw [if_pos (show pyStripStr "" = "" from rfl)]
          exact ih
        · have hsb : (s == "") = false := beq_eq_false_iff_ne.mpr hs
          simp only [valNonEmptyNonNull, hsb, hk1, hk2, Bool.or_false, Bool.not_false,
            Bool.and_true, Bool.true_and, if_true]
          by_cases ht : pyStripStr s = ""
          · have htb : (pyStripStr s == "") = true := beq_iff_eq.mpr ht
            simp only [htb, if_true]
            rw [if_pos ht]
            exact ih
          · have htb : (pyStripStr s == "") = false := beq_eq_false_iff_ne.mpr ht
            simp only [htb, Bool.false_eq_true, if_false]
            rw [if_neg ht]
            rw [ih]
            rfl
      | .jnum q =>
        simp only [valNonEmptyNonNull, hk1, hk2, Bool.or_false, Bool.not_false,
          Bool.and_true, Bool.true_and, if_true]
        rw [ih]
        rfl
      | .jbool b =>
        simp only [valNonEmptyNonNull, hk1, hk2, Bool.or_false, Bool.not_false,
          Bool.and_true, Bool.true_and, if_true]
        rw [ih]
        rfl
      | .jarr l =>
        simp only [valNonEmptyNonNull, hk1, hk2, Bool.or_false, Bool.not_false,
          Bool.and_true, Bool.true_and, if_true]
        rw [ih]
        rfl
      | .jobj m =>
        simp only [valNonEmptyNonNull, hk1, hk2, Bool.or_false, Bool.not_false,
          Bool.and_true, Bool.true_and, if_true]
        rw [ih]
        rfl

theorem validate_props_eq (fs : List (String × JValue)) (g : JValue)
    (ps : List (String × JValue))
    (h : validate_and_fix_feature (.jobj fs) = .ok (some g))
    (hp : lookupField fs "properties" = some (.jobj ps)) :
    featureProps g = clean_properties ps := by
  unfold validate_and_fix_feature at h
  by_cases ht : isFeatureTyped fs = true
  · simp only [ht, if_true, hp, Option.getD_some] at h
    match hec : extract_coordinates ((lookupField fs "geometry").getD (.jobj []))
        (.jobj ps) with
    | .error e => rw [hec] at h; exact Except.noConfusion h
    | .ok none => rw [hec, except_bind_ok] at h; exact Option.noConfusion (Except.ok.inj h)
    | .ok (some (lon, lat)) =>
      rw [hec, except_bind_ok] at h
      have hg2 := Option.some.inj (Except.ok.inj h)
      subst hg2
      rfl
  · simp only [ht, if_false] at h
    exact Option.noConfusion (Except.ok.inj h)

/-- C8.  The cleaning loop coincides with the spec's normalization: drop
empty-string/`None` values and `latitude`/`longitude` keys, trim string
values (dropping those trimming to empty), pass other values through; in
particular an accepted candidate's emitted properties are exactly the
normalization of its input properties, and the `{" DC1 ", "", 5}` example
normalizes to `{"name": "DC1", "extra": 5}`. -/
theorem c8_theorem :
    (∀ ps, clean_properties ps = normalize_spec ps) ∧
    (∀ fs g ps, validate_and_fix_feature (.jobj fs) = .ok (some g) →
      lookupField fs "properties" = some (.jobj ps) →
      featureProps g = normalize_spec ps) ∧
    validate_and_fix_feature (.jobj c8_fields) = .ok (some c8_output) :=
  ⟨clean_properties_eq_spec,
   fun fs g ps h hp => (validate_props_eq fs g ps h hp).trans (clean_properties_eq_spec ps),
   rfl⟩

/-- Witness for `c8_theorem` at the example candidate. -/
theorem c8_witness :
    featureProps c8_output =
      normalize_spec [("name", .jstr " DC1 "), ("note", .jstr ""), ("extra", .jnum (mkRat 5 1))] :=
  c8_theorem.2.1 c8_fields c8_output
    [("name", .jstr " DC1 "), ("note", .jstr ""), ("extra", .jnum (mkRat 5 1))] rfl rfl

/-- C10.  A structured candidate typed `Feature` with no `geometry` key at
all is still accepted when its properties hold `latitude`/`longitude`
values parsing (via `float(str(.))`) to a globally valid pair: the
validator emits a Point Feature with coordinates `[lon, lat]`. -/
theorem c10_theorem (ps : List (String × JValue)) (la lo : JValue) (qla qlo : ℚ)
    (h1 : lookupField ps "latitude" = some la)
    (h2 : lookupField ps "longitude" = some lo)
    (h3 : strFloatView la = some qla)
    (h4 : strFloatView lo = some qlo)
    (h5 : is_valid_coordinate qla qlo = true) :
    validate_and_fix_feature (.jobj [("type", .jstr "Feature"), ("properties", .jobj ps)]) =
      .ok (some (.jobj [("type", .jstr "Feature"),
        ("geometry", .jobj [("type", .jstr "Point"),
          ("coordinates", .jarr [.jnum qlo, .jnum qla])]),
        ("properties", .jobj (clean_properties ps))])) := by
  simp only [validate_and_fix_feature]
  rw [show isFeatureTyped [("type", .jstr "Feature"), ("properties", .jobj ps)] = true from rfl]
  simp only [if_true]
  rw [show lookupField [("type", JValue.jstr "Feature"), ("properties", JValue.jobj ps)]
    "geometry" = none from rfl]
  rw [show lookupField [("type", JValue.jstr "Feature"), ("properties", JValue.jobj ps)]
    "properties" = some (.jobj ps) from rfl]
  simp only [Option.getD_none, Option.getD_some]
  have hec : extract_coordinates (.jobj []) (.jobj ps) = .ok (some (.jnum qlo, .jnum qla)) := by
    unfold extract_coordinates
    simp only [pyContains, hasField, h1, h2, Option.isSome, ec_priority1, getItemTry,
      h3, h4, h5, except_bind_ok, if_true]
    rfl
  rw [hec, except_bind_ok]
  rfl

/-- Witness for `c10_theorem`: a geometry-less Feature with string
latitude and numeric longitude in properties. -/
theorem c10_witness :
    validate_and_fix_feature (.jobj [("type", .jstr "Feature"),
      ("properties", .jobj [("latitude", .jstr "-33.45"),
        ("longitude", .jnum (mkRat (-7067) 100)), ("name", .jstr "DC")])]) =
      .ok (some (.jobj [("type", .jstr "Feature"),
        ("geometry", .jobj [("type", .jstr "Point"),
          ("coordinates", .jarr [.jnum (mkRat (-7067) 100), .jnum (mkRat (-3345) 100)])]),
        ("properties", .jobj (clean_properties
          [("latitude", .jstr "-33.45"),
           ("longitude", .jnum (mkRat (-7067) 100)), ("name", .jstr "DC")]))])) :=
  c10_theorem
    [("latitude", .jstr "-33.45"), ("longitude", .jnum (mkRat (-7067) 100)), ("name", .jstr "DC")]
    (.jstr "-33.45") (.jnum (mkRat (-7067) 100)) (mkRat (-3345) 100) (mkRat (-7067) 100)
    rfl rfl rfl rfl (by decide)

theorem except_bind_error {α β : Type} (e : Unit) (f : α → Except Unit β) :
    (Except.error e >>= f) = Except.error e := rfl

theorem altFieldSearch_numbool (props : JValue) (fields : List String) (v : JValue)
    (h : altFieldSearch props fields = .ok (some v)) :
    (∃ q, v = .jnum q) ∨ (∃ b, v = .jbool b) := by
  induction fields with
  | nil => exact Option.noConfusion (Except.ok.inj h)
  | cons f rest ih =>
    unfold altFieldSearch at h
    cases hc : pyContains f props with
    | error e => rw [hc, except_bind_error] at h; exact Except.noConfusion h
    | ok b =>
      rw [hc, except_bind_ok] at h
      match b with
      | false => exact ih h
      | true =>
        simp only [if_true] at h
        match hg : getItemTry props f with
        | none => rw [hg] at h; exact ih h
        | some w =>
          simp only [hg] at h
          match w with
          | .jnum q => exact Or.inl ⟨q, (Option.some.inj (Except.ok.inj h)).symm⟩
          | .jbool bb => exact Or.inr ⟨bb, (Option.some.inj (Except.ok.inj h)).symm⟩
          | .jnull => exact ih h
          | .jarr l => exact ih h
          | .jobj m => exact ih h
          | .jstr s =>
            have h2 : (match parseFloatQ s with
                | some q => Except.ok (some (JValue.jnum q))
                | none => altFieldSearch props rest) = Except.ok (some v) := h
            match hp : parseFloatQ s with
            | none => rw [hp] at h2; exact ih h2
            | some q =>
              rw [hp] at h2
              exact Or.inl ⟨q, (Option.some.inj (Except.ok.inj h2)).symm⟩

theorem ec_p1_valid (props : JValue) (hl ho : Bool) (lon lat : JValue)
    (h : ec_priority1 props hl ho = some (lon, lat)) :
    ∃ ql qa, pyFloatView lon = some ql ∧ pyFloatView lat = some qa ∧
      is_valid_coordinate qa ql = true := by
  unfold ec_priority1 at h
  by_cases hb : (hl && ho) = true
  · simp only [hb, if_true] at h
    match hgl : getItemTry props "latitude", hgo : getItemTry props "longitude" with
    | some latV, some lonV =>
      simp only [hgl, hgo] at h
      match hsl : strFloatView latV, hso : strFloatView lonV with
      | some qa, some ql =>
        simp only [hsl, hso] at h
        by_cases hv : is_valid_coordinate qa ql = true
        · simp only [hv, if_true] at h
          obtain ⟨h1, h2⟩ := Prod.mk.injEq .. ▸ Option.some.inj h
          exact ⟨ql, qa, by rw [← h1]; rfl, by rw [← h2]; rfl, hv⟩
        · simp only [hv, Bool.false_eq_true, if_false] at h
          exact Option.noConfusion h
      | some _, none => simp only [hsl, hso] at h; exact Option.noConfusion h
      | none, some _ => simp only [hsl, hso] at h; exact Option.noConfusion h
      | none, none => simp only [hsl, hso] at h; exact Option.noConfusion h
    | some _, none => simp only [hgl, hgo] at h; exact Option.noConfusion h
    | none, some _ => simp only [hgl, hgo] at h; exact Option.noConfusion h
    | none, none => simp only [hgl, hgo] at h; exact Option.noConfusion h
  · simp only [hb, Bool.false_eq_true, if_false] at h
    exact Option.noConfusion h

theorem ec_p2_valid (geom : JValue) (lon lat : JValue)
    (h : ec_priority2 geom = some (lon, lat)) :
    ∃ ql qa, pyFloatView lon = some ql ∧ pyFloatView lat = some qa ∧
      is_valid_coordinate qa ql = true := by
  unfold ec_priority2 at h
  match geom with
  | .jnull | .jbool _ | .jnum _ | .jstr _ | .jarr _ => exact Option.noConfusion h
  | .jobj gfs =>
    replace h : (match lookupField gfs "coordinates" with
      | some (.jarr [c1, c2]) =>
        match pyFloatView c1, pyFloatView c2 with
        | some q1, some q2 =>
          if is_valid_coordinate q2 q1 then some (c1, c2)
          else if is_valid_coordinate q1 q2 then some (c2, c1)
          else none
        | _, _ => none
      | _ => none) = some (lon, lat) := h
    match hc : lookupField gfs "coordinates" with
    | none => rw [hc] at h; exact Option.noConfusion h
    | some .jnull | some (.jbool _) | some (.jnum _) | some (.jstr _) | some (.jobj _) =>
      rw [hc] at h; exact Option.noConfusion h
    | some (.jarr l) =>
      match l with
      | [] | [_] | _ :: _ :: _ :: _ => rw [hc] at h; exact Option.noConfusion h
      | [c1, c2] =>
        simp only [hc] at h
        match h1 : pyFloatView c1, h2 : pyFloatView c2 with
        | some q1, some q2 =>
          simp only [h1, h2] at h
          by_cases hv : is_valid_coordinate q2 q1 = true
          · simp only [hv, if_true] at h
            obtain ⟨e1, e2⟩ := Prod.mk.injEq .. ▸ Option.some.inj h
            exact ⟨q1, q2, by rw [← e1]; exact h1, by rw [← e2]; exact h2, hv⟩
          · simp only [hv, Bool.false_eq_true, if_false] at h
            by_cases hv2 : is_valid_coordinate q1 q2 = true
            · simp only [hv2, if_true] at h
              obtain ⟨e1, e2⟩ := Prod.mk.injEq .. ▸ Option.some.inj h
              exact ⟨q2, q1, by rw [← e1]; exact h2, by rw [← e2]; exact h1, hv2⟩
            · simp only [hv2, Bool.false_eq_true, if_false] at h
              exact Option.noConfusion h
        | some _, none => simp only [h1, h2] at h; exact Option.noConfusion h
        | none, some _ => simp only [h1, h2] at h; exact Option.noConfusion h
        | none, none => simp only [h1, h2] at h; exact Option.noConfusion h

/-- Any coordinate pair returned by `extract_coordinates` has numeric
views and is globally valid (as a `(lon, lat)` pair). -/
theorem extract_coordinates_valid (geom props lon lat : JValue)
    (h : extract_coordinates geom props = .ok (some (lon, lat))) :
    ∃ ql qa, pyFloatView lon = some ql ∧ pyFloatView lat = some qa ∧
      is_valid_coordinate qa ql = true := by
  unfold extract_coordinates at h
  cases hc1 : pyContains "latitude" props with
  | error e => rw [hc1, except_bind_error] at h; exact Except.noConfusion h
  | ok b1 =>
    rw [hc1, except_bind_ok] at h
    have step2 : ∀ b2 : Bool,
        (match ec_priority1 props b1 b2 with
          | some r => (pure (some r) : Except Unit (Option (JValue × JValue)))
          | none =>
            match ec_priority2 geom with
            | some r => pure (some r)
            | none => do
              let latv ← altFieldSearch props lat_fields
              let lonv ← altFieldSearch props lon_fields
              match latv, lonv with
              | some lv, some ov =>
                if is_valid_coordinate (numViewPy lv) (numViewPy ov) then
                  pure (some (ov, lv))
                else pure none
              | _, _ => pure none) = .ok (some (lon, lat)) →
        ∃ ql qa, pyFloatView lon = some ql ∧ pyFloatView lat = some qa ∧
          is_valid_coordinate qa ql = true := by
      intro b2 hb
      match hp1 : ec_priority1 props b1 b2 with
      | some r =>
        rw [hp1] at hb
        obtain ⟨rl, rlat⟩ := r
        obtain ⟨e1, e2⟩ := Prod.mk.injEq .. ▸ Option.some.inj (Except.ok.inj hb)
        subst e1; subst e2
        exact ec_p1_valid props b1 b2 _ _ hp1
      | none =>
        rw [hp1] at hb
        match hp2 : ec_priority2 geom with
        | some r =>
          rw [hp2] at hb
          obtain ⟨rl, rlat⟩ := r
          obtain ⟨e1, e2⟩ := Prod.mk.injEq .. ▸ Option.some.inj (Except.ok.inj hb)
          subst e1; subst e2
          exact ec_p2_valid geom _ _ hp2
        | none =>
          rw [hp2] at hb
          cases ha1 : altFieldSearch props lat_fields with
          | error e => rw [ha1, except_bind_error] at hb; exact Except.noConfusion hb
          | ok latv =>
            rw [ha1, except_bind_ok] at hb
            cases ha2 : altFieldSearch props lon_fields with
            | error e => rw [ha2, except_bind_error] at hb; exact Except.noConfusion hb
            | ok lonv =>
              rw [ha2, except_bind_ok] at hb
              match latv, lonv with
              | some lv, some ov =>
                by_cases hv : is_valid_coordinate (numViewPy lv) (numViewPy ov) = true
                · simp only [hv, if_true] at hb
                  obtain ⟨e1, e2⟩ := Prod.mk.injEq .. ▸ Option.some.inj (Except.ok.inj hb)
                  subst e1; subst e2
                  have hlv := altFieldSearch_numbool props lat_fields lv ha1
                  have hov := altFieldSearch_numbool props lon_fields ov ha2
                  refine ⟨numViewPy ov, numViewPy lv, ?_, ?_, hv⟩
                  · rcases hov with ⟨q, hq⟩ | ⟨b, hq⟩ <;> subst hq <;> rfl
                  · rcases hlv with ⟨q, hq⟩ | ⟨b, hq⟩ <;> subst hq <;> rfl
                · simp only [hv, Bool.false_eq_true, if_false] at hb
                  exact Option.noConfusion (Except.ok.inj hb)
              | some _, none => exact Option.noConfusion (Except.ok.inj hb)
              | none, some _ => exact Option.noConfusion (Except.ok.inj hb)
              | none, none => exact Option.noConfusion (Except.ok.inj hb)
    cases b1 with
    | true =>
      rw [if_pos rfl] at h
      cases hc2 : pyContains "longitude" props with
      | error e => rw [hc2, except_bind_error] at h; exact Except.noConfusion h
      | ok b2 =>
        rw [hc2, except_bind_ok] at h
        exact step2 b2 h
    | false =>
      rw [if_neg Bool.false_ne_true, except_pure_bind] at h
      exact step2 false h

theorem dropWhile_self_of_prefix_self {p : Char → Bool} (m l : List Char)
    (hm : List.dropWhile p m = m) (hp : l <+: m) : List.dropWhile p l = l := by
  match l with
  | [] => rfl
  | a :: t =>
    obtain ⟨r, hr⟩ := hp
    subst hr
    rw [List.dropWhile_eq_self_iff] at hm
    have ha := hm (by simp)
    have ha2 : ¬p a = true := by simpa using ha
    rw [List.dropWhile_cons, if_neg ha2]

theorem pyStrip_eq (cs : List Char) :
    pyStrip cs = List.rdropWhile pyWs (List.dropWhile pyWs cs) := rfl

theorem pyStrip_idem (cs : List Char) : pyStrip (pyStrip cs) = pyStrip cs := by
  rw [pyStrip_eq, pyStrip_eq]
  rw [dropWhile_self_of_prefix_self (List.dropWhile pyWs cs) _
    (List.dropWhile_idempotent pyWs cs) ( List.rdropWhile_prefix pyWs (List.dropWhile pyWs cs))]
  exact List.rdropWhile_idempotent pyWs (List.dropWhile pyWs cs)

theorem pyStripStr_idem (s : String) : pyStripStr (pyStripStr s) = pyStripStr s := by
  unfold pyStripStr
  rw [show (String.mk (pyStrip s.data)).data = pyStrip s.data from rfl]
  rw [pyStrip_idem]

theorem clean_no_latlon (ps : List (String × JValue)) :
    lookupField (clean_properties ps) "latitude" = none ∧
    lookupField (clean_properties ps) "longitude" = none := by
  induction ps with
  | nil => exact ⟨rfl, rfl⟩
  | cons kv rest ih =>
    obtain ⟨k, v⟩ := kv
    unfold clean_properties
    by_cases hg : (valNonEmptyNonNull v && !(k == "latitude" || k == "longitude")) = true
    · simp only [hg, if_true]
      rw [Bool.and_eq_true, Bool.not_eq_true', Bool.or_eq_false_iff] at hg
      have hk1 : ¬(k = "latitude") := by
        intro he; rw [he] at hg; simp at hg
      have hk2 : ¬(k = "longitude") := by
        intro he; rw [he] at hg; simp at hg
      match v with
      | .jstr s =>
        by_cases hs : (pyStripStr s == "") = true
        · simp only [hs, if_true]; exact ih
        · simp only [hs, Bool.false_eq_true, if_false]
          unfold lookupField
          rw [if_neg hk1, if_neg hk2]
          exact ih
      | .jnull => simp [valNonEmptyNonNull] at hg
      | .jnum q =>
        unfold lookupField
        rw [if_neg hk1, if_neg hk2]
        exact ih
      | .jbool b =>
        unfold lookupField
        rw [if_neg hk1, if_neg hk2]
        exact ih
      | .jarr l =>
        unfold lookupField
        rw [if_neg hk1, if_neg hk2]
        exact ih
      | .jobj m =>
        unfold lookupField
        rw [if_neg hk1, if_neg hk2]
        exact ih
    · simp only [hg, Bool.false_eq_true, if_false]
      exact ih

theorem clean_properties_cons (k : String) (v : JValue) (rest : List (String × JValue)) :
    clean_properties ((k, v) :: rest) =
      if valNonEmptyNonNull v && !(k == "latitude" || k == "longitude") then
        match v with
        | .jstr s =>
          if pyStripStr s == "" then clean_properties rest
          else (k, .jstr (pyStripStr s)) :: clean_properties rest
        | _ => (k, v) :: clean_properties rest
      else clean_properties rest := rfl

theorem clean_idem (ps : List (String × JValue)) :
    clean_properties (clean_properties ps) = clean_properties ps := by
  induction ps with
  | nil => rfl
  | cons kv rest ih =>
    obtain ⟨k, v⟩ := kv
    rw [clean_properties_cons]
    by_cases hg : (valNonEmptyNonNull v && !(k == "latitude" || k == "longitude")) = true
    · simp only [hg, if_true]
      have hg2 := hg
      rw [Bool.and_eq_true] at hg2
      match v with
      | .jstr s =>
        by_cases hs : (pyStripStr s == "") = true
        · simp only [hs, if_true]
          exact ih
        · simp only [hs, Bool.false_eq_true, if_false]
          rw [clean_properties_cons]
          have hv2 : (valNonEmptyNonNull (JValue.jstr (pyStripStr s)) &&
              !(k == "latitude" || k == "longitude")) = true := by
            rw [Bool.and_eq_true]
            refine ⟨?_, hg2.2⟩
            simp only [valNonEmptyNonNull, Bool.not_eq_true']
            rwa [Bool.not_eq_true] at hs
          simp only [hv2, if_true]
          rw [pyStripStr_idem]
          simp only [hs, Bool.false_eq_true, if_false]
          rw [ih]
      | .jnull => simp [valNonEmptyNonNull] at hg
      | .jnum q =>
        rw [clean_properties_cons]
        simp only [hg, if_true]
        rw [ih]
      | .jbool b =>
        rw [clean_properties_cons]
        simp only [hg, if_true]
        rw [ih]
      | .jarr l =>
        rw [clean_properties_cons]
        simp only [hg, if_true]
        rw [ih]
      | .jobj m =>
        rw [clean_properties_cons]
        simp only [hg, if_true]
        rw [ih]
    · simp only [hg, Bool.false_eq_true, if_false]
      exact ih

/-- The validator is the identity on its own output. -/
theorem validate_idem (f g : JValue)
    (h : validate_and_fix_feature f = .ok (some g)) :
    validate_and_fix_feature g = .ok (some g) := by
  match f with
  | .jnull | .jbool _ | .jnum _ | .jstr _ | .jarr _ => exact Option.noConfusion (Except.ok.inj h)
  | .jobj fs =>
    unfold validate_and_fix_feature at h
    by_cases ht : isFeatureTyped fs = true
    · simp only [ht, if_true] at h
      match hec : extract_coordinates ((lookupField fs "geometry").getD (.jobj []))
          ((lookupField fs "properties").getD (.jobj [])) with
      | .error e => rw [hec] at h; exact Except.noConfusion h
      | .ok none => rw [hec, except_bind_ok] at h; exact Option.noConfusion (Except.ok.inj h)
      | .ok (some (lon, lat)) =>
        rw [hec, except_bind_ok] at h
        have hg2 := Option.some.inj (Except.ok.inj h)
        obtain ⟨ql, qa, hql, hqa, hv⟩ :=
          extract_coordinates_valid _ _ _ _ hec
        set cps := clean_properties
          (match (lookupField fs "properties").getD (.jobj []) with
            | .jobj ps => ps
            | _ => []) with hcps
        rw [← hg2]
        have hlat : pyContains "latitude" (JValue.jobj cps) = .ok false := by
          show Except.ok (lookupField cps "latitude").isSome = .ok false
          rw [hcps, (clean_no_latlon _).1]
          rfl
        have hp2 : ec_priority2 (.jobj [("type", .jstr "Point"),
            ("coordinates", .jarr [lon, lat])]) = some (lon, lat) := by
          show (match pyFloatView lon, pyFloatView lat with
            | some q1, some q2 =>
              if is_valid_coordinate q2 q1 then some (lon, lat)
              else if is_valid_coordinate q1 q2 then some (lat, lon)
              else none
            | _, _ => none) = some (lon, lat)
          simp only [hql, hqa, hv, if_true]
        simp only [validate_and_fix_feature]
        rw [show isFeatureTyped [("type", JValue.jstr "Feature"),
          ("geometry", JValue.jobj [("type", JValue.jstr "Point"),
            ("coordinates", JValue.jarr [lon, lat])]),
          ("properties", JValue.jobj cps)] = true from rfl]
        simp only [if_true]
        rw [show lookupField [("type", JValue.jstr "Feature"),
          ("geometry", JValue.jobj [("type", JValue.jstr "Point"),
            ("coordinates", JValue.jarr [lon, lat])]),
          ("properties", JValue.jobj cps)] "geometry" =
          some (.jobj [("type", .jstr "Point"), ("coordinates", .jarr [lon, lat])]) from rfl]
        rw [show lookupField [("type", JValue.jstr "Feature"),
          ("geometry", JValue.jobj [("type", JValue.jstr "Point"),
            ("coordinates", JValue.jarr [lon, lat])]),
          ("properties", JValue.jobj cps)] "properties" =
          some (.jobj cps) from rfl]
        simp only [Option.getD_some]
        have hec2 : extract_coordinates
            (.jobj [("type", .jstr "Point"), ("coordinates", .jarr [lon, lat])])
            (.jobj cps) = .ok (some (lon, lat)) := by
          unfold extract_coordinates
          rw [hlat, except_bind_ok, if_neg Bool.false_ne_true, except_pure_bind]
          rw [show ec_priority1 (JValue.jobj cps) false false = none from rfl]
          rw [hp2]
          rfl
        rw [hec2, except_bind_ok]
        have hcc : clean_properties cps = cps := by
          rw [hcps]; exact clean_idem _
        show Except.ok (some (JValue.jobj [("type", JValue.jstr "Feature"),
          ("geometry", JValue.jobj [("type", JValue.jstr "Point"),
            ("coordinates", JValue.jarr [lon, lat])]),
          ("properties", JValue.jobj (clean_properties cps))])) =
          Except.ok (some (JValue.jobj [("type", JValue.jstr "Feature"),
          ("geometry", JValue.jobj [("type", JValue.jstr "Point"),
            ("coordinates", JValue.jarr [lon, lat])]),
          ("properties", JValue.jobj cps)]))
        rw [hcc]
    · simp only [ht, if_false] at h
      exact Option.noConfusion (Except.ok.inj h)

theorem processFeatures_idem (fs : List JValue) :
    ∀ outs, processFeatures fs = .ok outs → processFeatures outs = .ok outs := by
  induction fs with
  | nil =>
    intro outs h
    have : [] = outs := Except.ok.inj h
    subst this
    rfl
  | cons f rest ih =>
    intro outs h
    unfold processFeatures at h
    cases hv : validate_and_fix_feature f with
    | error e => rw [hv, except_bind_error] at h; exact Except.noConfusion h
    | ok v =>
      rw [hv, except_bind_ok] at h
      cases hr : processFeatures rest with
      | error e => rw [hr, except_bind_error] at h; exact Except.noConfusion h
      | ok more =>
        rw [hr, except_bind_ok] at h
        have hmore := ih more hr
        match v with
        | none =>
          have : more = outs := Except.ok.inj h
          subst this
          exact hmore
        | some g =>
          have : g :: more = outs := Except.ok.inj h
          subst this
          unfold processFeatures
          rw [validate_idem f g hv, except_bind_ok, hmore, except_bind_ok]
          rfl

theorem extractA_features (content : List Char) (m : List (String × JValue)) (fs : List JValue)
    (h1 : startsWithBrace (pyStrip content) = true)
    (h2 : json_loads_list content = some (.jobj m))
    (h3 : lookupField m "features" = some (.jarr fs)) :
    extract_features_from_content content = .ok fs := by
  unfold extract_features_from_content
  rw [if_pos h1, h2]
  have hf : hasField m "features" = true := by
    unfold hasField
    rw [h3]
    rfl
  simp only [stratADispatch, hf, if_true, h3, Option.getD_some]
  rfl

/-- C6.  Re-running the pipeline on a text that parses to the pipeline's
own output `FeatureCollection` writes an identical `FeatureCollection`:
strategy 1 returns the features unchanged and the validator is the
identity on each of them. -/
theorem c6_theorem (content : List Char) (fs outs : List JValue)
    (h : processFeatures fs = .ok outs)
    (h1 : startsWithBrace (pyStrip content) = true)
    (h2 : json_loads_list content = some (featureCollection outs)) :
    parse_txt_to_geojson (some content) = some (featureCollection outs) := by
  have hA : extract_features_from_content content = .ok outs :=
    extractA_features content
      [("type", .jstr "FeatureCollection"), ("features", .jarr outs)] outs h1 h2 rfl
  have hrp : run_pipeline content = .ok outs := by
    unfold run_pipeline
    rw [hA, except_bind_ok]
    exact processFeatures_idem fs outs h
  calc parse_txt_to_geojson (some content)
      = (match run_pipeline content with
          | .ok feats => some (featureCollection feats)
          | .error _ => none) := rfl
    _ = some (featureCollection outs) := by rw [hrp]

set_option maxRecDepth 100000 in
/-- Witness for `c6_theorem` on the serialized form of its own output. -/
theorem c6_witness :
    parse_txt_to_geojson (some ("\x7b\"type\": \"FeatureCollection\", \"features\": [\x7b\"type\": \"Feature\", \"geometry\": \x7b\"type\": \"Point\", \"coordinates\": [1, 2]\x7d, \"properties\": \x7b\"name\": \"A\"\x7d\x7d]\x7d".data)) =
      some (featureCollection [c6_feat]) :=
  c6_theorem _ [c6_feat] [c6_feat] rfl rfl rfl

/-- The validator accepts every well-formed Feature and preserves its
coordinates. -/
theorem wf_validate (f : JValue) (h : wfFeature f = true) :
    ∃ g, validate_and_fix_feature f = .ok (some g) ∧
      coordsOfFeature g = coordsOfFeature f := by
  match f with
  | .jnull | .jbool _ | .jnum _ | .jstr _ | .jarr _ => exact absurd h (by simp [wfFeature])
  | .jobj fs =>
    unfold wfFeature at h
    rw [Bool.and_eq_true, Bool.and_eq_true] at h
    obtain ⟨⟨ht, hgeo⟩, hprops⟩ := h
    match hg : lookupField fs "geometry" with
    | none => rw [hg] at hgeo; exact absurd hgeo (by simp)
    | some .jnull | some (.jbool _) | some (.jnum _) | some (.jstr _) | some (.jarr _) =>
      rw [hg] at hgeo; exact absurd hgeo (by simp)
    | some (.jobj gs) =>
      simp only [hg] at hgeo
      rw [Bool.and_eq_true] at hgeo
      obtain ⟨htypePoint, hcoords⟩ := hgeo
      match hp : lookupField fs "properties" with
      | none => rw [hp] at hprops; exact absurd hprops (by simp)
      | some .jnull | some (.jbool _) | some (.jnum _) | some (.jstr _) | some (.jarr _) =>
        rw [hp] at hprops; exact absurd hprops (by simp)
      | some (.jobj ps) =>
        simp only [hp] at hprops
        rw [Bool.and_eq_true, Bool.not_eq_true', Bool.not_eq_true'] at hprops
        obtain ⟨hlatF, hlonF⟩ := hprops
        match hc : lookupField gs "coordinates" with
        | none => rw [hc] at hcoords; exact absurd hcoords (by simp)
        | some .jnull | some (.jbool _) | some (.jnum _) | some (.jstr _) | some (.jobj _) =>
          rw [hc] at hcoords; exact absurd hcoords (by simp)
        | some (.jarr l) =>
          match l with
          | [] | [_] | _ :: _ :: _ :: _ =>
            rw [hc] at hcoords; exact absurd hcoords (by simp)
          | [v1, v2] =>
            match v1, v2 with
            | .jnum lon, .jnum lat =>
              simp only [hc] at hcoords
              have hlat : pyContains "latitude" (JValue.jobj ps) = .ok false := by
                show Except.ok (lookupField ps "latitude").isSome = .ok false
                unfold hasField at hlatF
                rw [Bool.eq_false_iff] at hlatF
                match hll : lookupField ps "latitude" with
                | none => rfl
                | some w => rw [hll] at hlatF; exact absurd rfl hlatF
              have hp2 : ec_priority2 (.jobj gs) = some (.jnum lon, .jnum lat) := by
                unfold ec_priority2
                replace hc2 : lookupField gs "coordinates" =
                  some (.jarr [JValue.jnum lon, JValue.jnum lat]) := hc
                simp only [hc2]
                show (match pyFloatView (JValue.jnum lon), pyFloatView (JValue.jnum lat) with
                  | some q1, some q2 =>
                    if is_valid_coordinate q2 q1 then some (JValue.jnum lon, JValue.jnum lat)
                    else if is_valid_coordinate q1 q2 then some (JValue.jnum lat, JValue.jnum lon)
                    else none
                  | _, _ => none) = some (.jnum lon, .jnum lat)
                simp only [pyFloatView, hcoords, if_true]
              have hec : extract_coordinates (.jobj gs) (.jobj ps) =
                  .ok (some (.jnum lon, .jnum lat)) := by
                unfold extract_coordinates
                rw [hlat, except_bind_ok, if_neg Bool.false_ne_true, except_pure_bind]
                rw [show ec_priority1 (JValue.jobj ps) false false = none from rfl]
                rw [hp2]
                rfl
              refine ⟨.jobj [("type", .jstr "Feature"),
                ("geometry", .jobj [("type", .jstr "Point"),
                  ("coordinates", .jarr [.jnum lon, .jnum lat])]),
                ("properties", .jobj (clean_properties ps))], ?_, ?_⟩
              · unfold validate_and_fix_feature
                simp only [ht, if_true, hg, hp, Option.getD_some]
                rw [hec, except_bind_ok]
                rfl
              · unfold coordsOfFeature
                simp only [hg, lookupField]
                norm_num
                exact hc.symm
            | .jnum _, .jnull | .jnum _, .jbool _ | .jnum _, .jstr _
            | .jnum _, .jarr _ | .jnum _, .jobj _ =>
              rw [hc] at hcoords; exact absurd hcoords (by simp)
            | .jnull, _ | .jbool _, _ | .jstr _, _ | .jarr _, _ | .jobj _, _ =>
              rw [hc] at hcoords; exact absurd hcoords (by simp)

theorem processFeatures_wf (fs : List JValue) (h : fs.all wfFeature = true) :
    ∃ outs, processFeatures fs = .ok outs ∧ outs.length = fs.length ∧
      outs.map coordsOfFeature = fs.map coordsOfFeature := by
  induction fs with
  | nil => exact ⟨[], rfl, rfl, rfl⟩
  | cons f rest ih =>
    rw [List.all_cons, Bool.and_eq_true] at h
    obtain ⟨outs, ho, hlen, hmap⟩ := ih h.2
    obtain ⟨g, hval, hco⟩ := wf_validate f h.1
    refine ⟨g :: outs, ?_, by simp [hlen], ?_⟩
    · unfold processFeatures
      rw [hval, except_bind_ok, ho, except_bind_ok]
      rfl
    · simp only [List.map_cons, hco, hmap]

/-- C3.  A text carrying a well-formed FeatureCollection is taken by
strategy 1, and the validator accepts every well-formed Feature: the
output has exactly as many features as the input and the coordinates are
unchanged, still in `[lon, lat]` order. -/
theorem c3_theorem (content : List Char) (m : List (String × JValue)) (fs : List JValue)
    (h1 : startsWithBrace (pyStrip content) = true)
    (h2 : json_loads_list content = some (.jobj m))
    (h3 : lookupField m "features" = some (.jarr fs))
    (h4 : fs.all wfFeature = true) :
    okLength (run_pipeline content) = some fs.length ∧
    okCoords (run_pipeline content) = some (fs.map coordsOfFeature) := by
  have hA := extractA_features content m fs h1 h2 h3
  obtain ⟨outs, ho, hlen, hmap⟩ := processFeatures_wf fs h4
  have hrp : run_pipeline content = .ok outs := by
    unfold run_pipeline
    rw [hA, except_bind_ok, ho]
  rw [hrp]
  exact ⟨by simp [okLength, hlen], by simp [okCoords, hmap]⟩

set_option maxRecDepth 100000 in
/-- Witness for `c3_theorem` on a one-feature FeatureCollection text. -/
theorem c3_witness :
    okLength (run_pipeline ("\x7b\"type\": \"FeatureCollection\", \"features\": [\x7b\"type\": \"Feature\", \"geometry\": \x7b\"type\": \"Point\", \"coordinates\": [-70.67, -33.45]\x7d, \"properties\": \x7b\"name\": \"B\"\x7d\x7d]\x7d".data)) = some 1 ∧
    okCoords (run_pipeline ("\x7b\"type\": \"FeatureCollection\", \"features\": [\x7b\"type\": \"Feature\", \"geometry\": \x7b\"type\": \"Point\", \"coordinates\": [-70.67, -33.45]\x7d, \"properties\": \x7b\"name\": \"B\"\x7d\x7d]\x7d".data)) =
      some ([.jobj [("type", .jstr "Feature"),
        ("geometry", .jobj [("type", .jstr "Point"),
          ("coordinates", .jarr [.jnum (mkRat (-7067) 100), .jnum (mkRat (-3345) 100)])]),
        ("properties", .jobj [("name", .jstr "B")])]].map coordsOfFeature) :=
  c3_theorem _
    [("type", .jstr "FeatureCollection"),
     ("features", .jarr [.jobj [("type", .jstr "Feature"),
        ("geometry", .jobj [("type", .jstr "Point"),
          ("coordinates", .jarr [.jnum (mkRat (-7067) 100), .jnum (mkRat (-3345) 100)])]),
        ("properties", .jobj [("name", .jstr "B")])]])]
    [.jobj [("type", .jstr "Feature"),
        ("geometry", .jobj [("type", .jstr "Point"),
          ("coordinates", .jarr [.jnum (mkRat (-7067) 100), .jnum (mkRat (-3345) 100)])]),
        ("properties", .jobj [("name", .jstr "B")])]]
    rfl rfl rfl (by decide)
